import Mathlib

/-!
Verification of the WasteManagement extractor (src/main.py, src/app.py).

The repository wraps a hosted vision model: it declares a structured tool
(waste_report) with a JSON schema, sends an image, and turns the single tool
invocation into a "ticket" record that is timestamped, patched with the wall
time and persisted.

Shallow embedding conventions:
* Python floats are embedded as rationals; image bytes are a list of naturals.
* The nondeterministic environment effects of one callback invocation
  (uuid.uuid4() and datetime.now(IST)) are bundled as a GenMeta record that
  the invocation event carries.
* The behaviour of the external model during one agent(...) call is a list of
  (GenMeta x WasteArgs) invocation events; the time.time() readings around
  the call are two rational parameters.
* The module-global list COLLECTED_TICKETS is threaded explicitly: the tool
  and run_model take the current buffer and return the new one.
* main.py and app.py each define their own copies of the tool and of
  run_model; they are embedded separately (namespaces MainPy and AppPy)
  over shared record types, mirroring the duplicated source.
-/

/-- Arguments of one waste_report callback invocation
(src/main.py lines 91-102; src/app.py lines 101-112; identical in both). -/
structure WasteArgs where
  area_name : String
  lat : ℚ
  lng : ℚ
  waste_type : String
  volume_level : String
  estimated_weight_kg : ℚ
  priority : String
  near_sensitive_zone : Bool
  action : String
  vehicle_type : String
  requires_after_photo : Bool
deriving DecidableEq, Repr

/-- The environment effects drawn at one callback invocation:
str(uuid.uuid4()) and datetime.now(IST).isoformat()
(src/main.py lines 114-115). -/
structure GenMeta where
  ticket_id : String
  created_at : String
deriving DecidableEq, Repr

/-- The ticket dict built by waste_report (src/main.py lines 113-128).
wall_time_seconds is None at creation and patched by run_model. -/
structure Ticket where
  ticket_id : String
  created_at : String
  area_name : String
  lat : ℚ
  lng : ℚ
  waste_type : String
  volume_level : String
  estimated_weight_kg : ℚ
  priority : String
  near_sensitive_zone : Bool
  action : String
  vehicle_type : String
  requires_after_photo : Bool
  wall_time_seconds : Option ℚ
deriving DecidableEq, Repr

/-- The dict returned by the tool body: literally the record
with status field "success" (src/main.py line 132). -/
structure ToolResult where
  status : String
deriving DecidableEq, Repr

/-- Configuration of the BedrockModel built inside run_model
(src/main.py lines 140-145). -/
structure ModelConfig where
  model_id : String
  region_name : String
  temperature : ℚ
  max_tokens : Nat
deriving DecidableEq, Repr

/-- The image content block of the agent request
(src/main.py line 157). -/
structure ImageBlock where
  format : String
  bytes : List Nat
deriving DecidableEq, Repr

/-- The full request sent to the model endpoint: model configuration,
system prompt, user text and the embedded image
(src/main.py lines 140-158). -/
structure AgentRequest where
  config : ModelConfig
  system_prompt : String
  user_text : String
  image : ImageBlock
deriving DecidableEq, Repr

/-- The nearest integer to x with ties to even, the rounding used by the
built-in round of Python. -/
def roundHalfEven (x : ℚ) : ℤ :=
  let f : ℤ := ⌊x⌋
  let frac : ℚ := x - (f : ℚ)
  if frac < 1/2 then f
  else if 1/2 < frac then f + 1
  else if f % 2 = 0 then f else f + 1

/-- The Python expression round(x, 4): x rounded to four decimal places
(src/main.py line 160). -/
def round4 (x : ℚ) : ℚ := ((roundHalfEven (x * 10000) : ℤ) : ℚ) / 10000

/-- The enumeration and typing constraints the declared inputSchema places on
the callback arguments (src/main.py lines 41-89): every required field is
present (structurally guaranteed here) and every enumerated field lies in its
declared set.  Note the schema constrains lat, lng and estimated_weight_kg
only to be numbers. -/
def inputSchemaAccepts (a : WasteArgs) : Bool :=
  ["ORGANIC", "PLASTIC", "E_WASTE", "C_D_WASTE", "MIXED", "OTHER"].contains a.waste_type
  && ["LOW", "MEDIUM", "HIGH"].contains a.volume_level
  && ["P0", "P1", "P2"].contains a.priority
  && ["DISPATCH_NOW", "ADD_TO_ROUTE", "MONITOR"].contains a.action
  && ["E_RICKSHAW", "PICKUP", "COMPACTOR", "OTHER"].contains a.vehicle_type

/-- The artifact serialized to the output file: either a ticket wrapper
or an error wrapper (src/main.py lines 186-194). -/
inductive Artifact where
  | ticket (t : Ticket)
  | error (msg : String)
deriving DecidableEq, Repr

namespace MainPy

/-- System prompt of src/main.py lines 24-29. -/
def NOVA_SYSTEM : String :=
  "\nYou are an expert waste-detection AI.\n\nAnalyze the image and call waste_report EXACTLY ONCE.\nDo not output any text outside the tool call.\n"

/-- User prompt of src/main.py lines 31-33. -/
def NOVA_USER : String :=
  "\nInspect the image carefully and call waste_report once.\n"

/-- The ticket dict literal of src/main.py lines 113-128. -/
def mkTicket (g : GenMeta) (a : WasteArgs) : Ticket :=
  { ticket_id := g.ticket_id
    created_at := g.created_at
    area_name := a.area_name
    lat := a.lat
    lng := a.lng
    waste_type := a.waste_type
    volume_level := a.volume_level
    estimated_weight_kg := a.estimated_weight_kg
    priority := a.priority
    near_sensitive_zone := a.near_sensitive_zone
    action := a.action
    vehicle_type := a.vehicle_type
    requires_after_photo := a.requires_after_photo
    wall_time_seconds := none }

/-- The tool body of src/main.py lines 91-132: clear the global buffer,
build the ticket, append it, return the success dict.  The current
COLLECTED_TICKETS buffer is passed in and the new buffer returned. -/
def waste_report (g : GenMeta) (a : WasteArgs) (COLLECTED_TICKETS : List Ticket) :
    List Ticket × ToolResult :=
  let cleared : List Ticket := []
  let ticket : Ticket :=
    { ticket_id := g.ticket_id
      created_at := g.created_at
      area_name := a.area_name
      lat := a.lat
      lng := a.lng
      waste_type := a.waste_type
      volume_level := a.volume_level
      estimated_weight_kg := a.estimated_weight_kg
      priority := a.priority
      near_sensitive_zone := a.near_sensitive_zone
      action := a.action
      vehicle_type := a.vehicle_type
      requires_after_photo := a.requires_after_photo
      wall_time_seconds := none }
  (cleared ++ [ticket], { status := "success" })

/-- The request run_model builds (src/main.py lines 140-158); the image
format tag is the fixed literal "png". -/
def buildRequest (image_bytes : List Nat) : AgentRequest :=
  { config :=
      { model_id := "amazon.nova-pro-v1:0"
        region_name := "us-east-1"
        temperature := 0.2
        max_tokens := 4096 }
    system_prompt := NOVA_SYSTEM
    user_text := NOVA_USER
    image := { format := "png", bytes := image_bytes } }

/-- Effect of the agent(...) call on the buffer: each tool invocation the
model issues runs waste_report on the current buffer. -/
def runAgent (invocations : List (GenMeta × WasteArgs)) (buf : List Ticket) :
    List Ticket :=
  invocations.foldl (fun b inv => (waste_report inv.1 inv.2 b).1) buf

/-- run_model of src/main.py lines 138-168.  Parameters: the image bytes,
the invocation events the model issues during the agent call, the two
time.time() readings, and the COLLECTED_TICKETS buffer at entry.  Returns
the request built, the result ({ticket: ...} as Except.ok, the raised
RuntimeError as Except.error) and the buffer after the call; patching
wall_time_seconds on COLLECTED_TICKETS[0] mutates the buffered dict, so the
returned buffer head is the patched ticket. -/
def run_model (image_bytes : List Nat) (invocations : List (GenMeta × WasteArgs))
    (startTime endTime : ℚ) (COLLECTED_TICKETS : List Ticket) :
    AgentRequest × Except String Ticket × List Ticket :=
  let request := buildRequest image_bytes
  let buf := runAgent invocations COLLECTED_TICKETS
  let elapsed := round4 (endTime - startTime)
  match buf with
  | [] => (request, Except.error "Model did not call waste_report.", buf)
  | t :: rest =>
      let t2 := { t with wall_time_seconds := some elapsed }
      (request, Except.ok t2, t2 :: rest)

/-- The persistence step of main() (src/main.py lines 186-194): on success
the {ticket: ...} result is written, on an exception {error: str(exc)}; in
both cases the artifact is written to OUTPUT_PATH. -/
def main_output (r : Except String Ticket) : Artifact :=
  match r with
  | Except.ok t => Artifact.ticket t
  | Except.error exc => Artifact.error exc

/-- main() around run_model (src/main.py lines 186-194), returning the
artifact written to the output file and the buffer left behind. -/
def main_run (image_bytes : List Nat) (invocations : List (GenMeta × WasteArgs))
    (startTime endTime : ℚ) (COLLECTED_TICKETS : List Ticket) :
    Artifact × List Ticket :=
  let r := run_model image_bytes invocations startTime endTime COLLECTED_TICKETS
  (main_output r.2.1, r.2.2)

end MainPy

namespace AppPy

/-- System prompt of src/app.py lines 34-39 (identical to main.py). -/
def NOVA_SYSTEM : String :=
  "\nYou are an expert waste-detection AI.\n\nAnalyze the image and call waste_report EXACTLY ONCE.\nDo not output any text outside the tool call.\n"

/-- User prompt of src/app.py lines 41-43. -/
def NOVA_USER : String :=
  "\nInspect the image carefully and call waste_report once.\n"

/-- The ticket dict literal of src/app.py lines 116-131. -/
def mkTicket (g : GenMeta) (a : WasteArgs) : Ticket :=
  { ticket_id := g.ticket_id
    created_at := g.created_at
    area_name := a.area_name
    lat := a.lat
    lng := a.lng
    waste_type := a.waste_type
    volume_level := a.volume_level
    estimated_weight_kg := a.estimated_weight_kg
    priority := a.priority
    near_sensitive_zone := a.near_sensitive_zone
    action := a.action
    vehicle_type := a.vehicle_type
    requires_after_photo := a.requires_after_photo
    wall_time_seconds := none }

/-- The tool body of src/app.py lines 101-134 (same as the one in
main.py). -/
def waste_report (g : GenMeta) (a : WasteArgs) (COLLECTED_TICKETS : List Ticket) :
    List Ticket × ToolResult :=
  let cleared : List Ticket := []
  let ticket : Ticket :=
    { ticket_id := g.ticket_id
      created_at := g.created_at
      area_name := a.area_name
      lat := a.lat
      lng := a.lng
      waste_type := a.waste_type
      volume_level := a.volume_level
      estimated_weight_kg := a.estimated_weight_kg
      priority := a.priority
      near_sensitive_zone := a.near_sensitive_zone
      action := a.action
      vehicle_type := a.vehicle_type
      requires_after_photo := a.requires_after_photo
      wall_time_seconds := none }
  (cleared ++ [ticket], { status := "success" })

/-- The request run_model builds (src/app.py lines 141-159); the image
format tag is the caller-supplied image_format (default "png" in the
source). -/
def buildRequest (image_bytes : List Nat) (image_format : String) : AgentRequest :=
  { config :=
      { model_id := "amazon.nova-pro-v1:0"
        region_name := "us-east-1"
        temperature := 0.2
        max_tokens := 4096 }
    system_prompt := NOVA_SYSTEM
    user_text := NOVA_USER
    image := { format := image_format, bytes := image_bytes } }

/-- Effect of the agent(...) call on the buffer (src/app.py). -/
def runAgent (invocations : List (GenMeta × WasteArgs)) (buf : List Ticket) :
    List Ticket :=
  invocations.foldl (fun b inv => (waste_report inv.1 inv.2 b).1) buf

/-- run_model of src/app.py lines 140-169; identical to the one in main.py except
that the image format tag is the image_format parameter. -/
def run_model (image_bytes : List Nat) (image_format : String)
    (invocations : List (GenMeta × WasteArgs))
    (startTime endTime : ℚ) (COLLECTED_TICKETS : List Ticket) :
    AgentRequest × Except String Ticket × List Ticket :=
  let request := buildRequest image_bytes image_format
  let buf := runAgent invocations COLLECTED_TICKETS
  let elapsed := round4 (endTime - startTime)
  match buf with
  | [] => (request, Except.error "Model did not call waste_report.", buf)
  | t :: rest =>
      let t2 := { t with wall_time_seconds := some elapsed }
      (request, Except.ok t2, t2 :: rest)

/-- The run-detection handler of src/app.py lines 217-228: on success the
result is written to OUTPUT_PATH; on an exception st.error is shown and
st.stop() is called, so nothing is written.  Returns the artifact written
(if any) and the buffer left behind. -/
def run_detection (image_bytes : List Nat) (image_format : String)
    (invocations : List (GenMeta × WasteArgs))
    (startTime endTime : ℚ) (COLLECTED_TICKETS : List Ticket) :
    Option Artifact × List Ticket :=
  let r := run_model image_bytes image_format invocations startTime endTime COLLECTED_TICKETS
  match r.2.1 with
  | Except.ok t => (some (Artifact.ticket t), r.2.2)
  | Except.error _ => (none, r.2.2)

end AppPy

/-! Helper lemmas about the rounding function. -/

/-- Rounding an integer changes nothing. -/
theorem roundHalfEven_intCast (n : ℤ) : roundHalfEven (n : ℚ) = n := by
  unfold roundHalfEven
  simp

/-- round4 of an integer is that integer. -/
theorem round4_intCast (n : ℤ) : round4 (n : ℚ) = (n : ℚ) := by
  unfold round4
  have h : ((n : ℚ) * 10000) = ((n * 10000 : ℤ) : ℚ) := by push_cast; ring
  rw [h, roundHalfEven_intCast]
  push_cast
  field_simp

/-- Rounding preserves nonnegativity. -/
theorem roundHalfEven_nonneg (x : ℚ) (hx : 0 ≤ x) : 0 ≤ roundHalfEven x := by
  have hf : (0:ℤ) ≤ ⌊x⌋ := Int.floor_nonneg.mpr hx
  unfold roundHalfEven
  dsimp only
  split
  · exact hf
  · split
    · omega
    · split
      · exact hf
      · omega

/-- round4 preserves nonnegativity. -/
theorem round4_nonneg (x : ℚ) (hx : 0 ≤ x) : 0 ≤ round4 x := by
  have h : (0:ℤ) ≤ roundHalfEven (x * 10000) :=
    roundHalfEven_nonneg _ (by positivity)
  have h2 : (0:ℚ) ≤ ((roundHalfEven (x * 10000) : ℤ) : ℚ) := by exact_mod_cast h
  unfold round4
  positivity

/-! Concrete data used in closed theorems: the scenario of section 8 of the
spec, plus invalid variants. -/

/-- The callback arguments of the scenario in section 8 of the spec. -/
def scenarioArgs : WasteArgs :=
  { area_name := "Race Course"
    lat := 11.0025
    lng := 76.9548
    waste_type := "PLASTIC"
    volume_level := "HIGH"
    estimated_weight_kg := 120.5
    priority := "P0"
    near_sensitive_zone := true
    action := "DISPATCH_NOW"
    vehicle_type := "COMPACTOR"
    requires_after_photo := false }

/-- Concrete environment effects for the scenario invocation. -/
def scenarioMeta : GenMeta :=
  { ticket_id := "9b2f0a64-3d11-4c8e-9f2a-5a6e1c2d3e4f"
    created_at := "2026-10-12T10:15:00+05:30" }

/-- The ticket the scenario invocation builds, with a given
wall_time_seconds value. -/
def scenarioTicket (w : Option ℚ) : Ticket :=
  { ticket_id := "9b2f0a64-3d11-4c8e-9f2a-5a6e1c2d3e4f"
    created_at := "2026-10-12T10:15:00+05:30"
    area_name := "Race Course"
    lat := 11.0025
    lng := 76.9548
    waste_type := "PLASTIC"
    volume_level := "HIGH"
    estimated_weight_kg := 120.5
    priority := "P0"
    near_sensitive_zone := true
    action := "DISPATCH_NOW"
    vehicle_type := "COMPACTOR"
    requires_after_photo := false
    wall_time_seconds := w }

/-- The scenario arguments with a waste_type outside the declared
enumeration. -/
def badEnumArgs : WasteArgs := { scenarioArgs with waste_type := "NUCLEAR" }

/-- The scenario arguments with out-of-range coordinates and a negative
weight. -/
def outOfRangeArgs : WasteArgs :=
  { scenarioArgs with lat := 999, lng := -500, estimated_weight_kg := -25 }

/-! The claims. -/

/-- C1: for every schema-conforming argument tuple passed to the
waste_report callback during an extraction call, run_model returns a
record whose ticket holds exactly the callback arguments, the generated
identifier and creation timestamp, and a non-negative wall_time_seconds
(the rounded elapsed time), which is present (some, never none). -/
theorem c1_run_model_returns_callback_fields (g : GenMeta) (a : WasteArgs)
    (image_bytes : List Nat) (t0 t1 : ℚ)
    (_hschema : inputSchemaAccepts a = true) (hclock : t0 ≤ t1) :
    (MainPy.run_model image_bytes [(g, a)] t0 t1 []).2.1 =
      Except.ok
        { ticket_id := g.ticket_id
          created_at := g.created_at
          area_name := a.area_name
          lat := a.lat
          lng := a.lng
          waste_type := a.waste_type
          volume_level := a.volume_level
          estimated_weight_kg := a.estimated_weight_kg
          priority := a.priority
          near_sensitive_zone := a.near_sensitive_zone
          action := a.action
          vehicle_type := a.vehicle_type
          requires_after_photo := a.requires_after_photo
          wall_time_seconds := some (round4 (t1 - t0)) } ∧
    0 ≤ round4 (t1 - t0) :=
  ⟨rfl, round4_nonneg _ (by linarith)⟩

/-- Witness for C1 at the scenario of section 8 of the spec, with the
agent call lasting from time 0 to time 2. -/
theorem c1_run_model_returns_callback_fields_witness :
    inputSchemaAccepts scenarioArgs = true ∧ ((0:ℚ) ≤ 2) ∧
    ((MainPy.run_model [] [(scenarioMeta, scenarioArgs)] 0 2 []).2.1 =
      Except.ok
        { ticket_id := "9b2f0a64-3d11-4c8e-9f2a-5a6e1c2d3e4f"
          created_at := "2026-10-12T10:15:00+05:30"
          area_name := "Race Course"
          lat := 11.0025
          lng := 76.9548
          waste_type := "PLASTIC"
          volume_level := "HIGH"
          estimated_weight_kg := 120.5
          priority := "P0"
          near_sensitive_zone := true
          action := "DISPATCH_NOW"
          vehicle_type := "COMPACTOR"
          requires_after_photo := false
          wall_time_seconds := some (round4 (2 - 0)) } ∧
      0 ≤ round4 (2 - 0)) :=
  ⟨by decide, by norm_num,
    c1_run_model_returns_callback_fields scenarioMeta scenarioArgs [] 0 2
      (by decide) (by norm_num)⟩

/-- C2: when the model invokes waste_report twice in one extraction call,
with arguments a then b, the buffer state and the whole run_model output
equal those of a call in which only the second invocation happens
(last-write-wins): the result is built from b only, never a merge or an
append of both. -/
theorem c2_second_invocation_overwrites (ga gb : GenMeta) (a b : WasteArgs)
    (image_bytes : List Nat) (t0 t1 : ℚ) (buf buf2 : List Ticket) :
    MainPy.runAgent [(ga, a), (gb, b)] buf = MainPy.runAgent [(gb, b)] buf2 ∧
    MainPy.run_model image_bytes [(ga, a), (gb, b)] t0 t1 buf =
      MainPy.run_model image_bytes [(gb, b)] t0 t1 buf2 :=
  ⟨rfl, rfl⟩

/-- C3 (code bug): a call with zero invocations raises the no-callback
error only when the buffer is empty at entry.  After a previous successful
call the buffer still holds the ticket of that call, so a zero-invocation
call returns that stale ticket (with wall_time_seconds re-patched) instead
of raising, contradicting the claim that the error is raised regardless of
the state left by previous calls. -/
theorem c3_zero_invocations_stale_buffer_returns_stale_ticket :
    (MainPy.run_model [] [] 10 13 []).2.1 =
      Except.error "Model did not call waste_report." ∧
    (MainPy.run_model [] [] 10 13
        (MainPy.run_model [] [(scenarioMeta, scenarioArgs)] 0 2 []).2.2).2.1 =
      Except.ok (scenarioTicket (some (round4 (13 - 10)))) :=
  ⟨rfl, rfl⟩

/-- C4 (code bug): the buffer is not cleared at entry to run_model.  The
buffer a successful call leaves behind still holds its ticket, and a
subsequent call whose model makes no invocation (so nothing could rebuild
the buffer) still ends with that same ticket in the buffer, mutated with a
new wall_time_seconds: state from a previous call leaks into the current
one. -/
theorem c4_buffer_not_cleared_at_run_model_entry :
    (MainPy.run_model [] [(scenarioMeta, scenarioArgs)] 0 2 []).2.2 =
      [scenarioTicket (some (round4 (2 - 0)))] ∧
    (MainPy.run_model [] [] 10 14
        (MainPy.run_model [] [(scenarioMeta, scenarioArgs)] 0 2 []).2.2).2.2 =
      [scenarioTicket (some (round4 (14 - 10)))] :=
  ⟨rfl, rfl⟩

/-- C5 counterexample: an invocation whose waste_type NUCLEAR is outside
the enumeration declared in the inputSchema is not rejected by the client
code: waste_report reports success and the CLI persists a ticket artifact
carrying the invalid value, not a schema-violation error. -/
theorem c5_counterexample_out_of_set_value_accepted :
    inputSchemaAccepts badEnumArgs = false ∧
    (MainPy.waste_report scenarioMeta badEnumArgs []).2 = { status := "success" } ∧
    (MainPy.main_run [] [(scenarioMeta, badEnumArgs)] 0 1 []).1 =
      Artifact.ticket
        { scenarioTicket (some (round4 (1 - 0))) with waste_type := "NUCLEAR" } :=
  ⟨by decide, rfl, rfl⟩

/-- C5 (amended): the client code performs no schema validation itself;
the schema is only declared in the tool registration for the external
framework and model to honour.  For every argument tuple, valid or not,
waste_report unconditionally buffers a ticket carrying the arguments and
reports success, and run_model returns that ticket without any
schema-violation error. -/
theorem c5_amended_client_performs_no_validation (g : GenMeta) (a : WasteArgs)
    (image_bytes : List Nat) (t0 t1 : ℚ) (buf : List Ticket) :
    MainPy.waste_report g a buf = ([MainPy.mkTicket g a], { status := "success" }) ∧
    AppPy.waste_report g a buf = ([AppPy.mkTicket g a], { status := "success" }) ∧
    (MainPy.run_model image_bytes [(g, a)] t0 t1 []).2.1 =
      Except.ok { MainPy.mkTicket g a with wall_time_seconds := some (round4 (t1 - t0)) } :=
  ⟨rfl, rfl, rfl⟩

/-- C6 counterexample: a callback invocation with lat 999 (above 90),
lng -500 (below -180) and estimated_weight_kg -25 (negative) is not
rejected: run_model returns a valid ticket carrying exactly those
out-of-range values. -/
theorem c6_counterexample_out_of_range_accepted :
    (90:ℚ) < 999 ∧ (-500:ℚ) < -180 ∧ (-25:ℚ) < 0 ∧
    (MainPy.run_model [] [(scenarioMeta, outOfRangeArgs)] 0 1 []).2.1 =
      Except.ok
        { scenarioTicket (some (round4 (1 - 0))) with
            lat := 999, lng := -500, estimated_weight_kg := -25 } :=
  ⟨by norm_num, by norm_num, by norm_num, rfl⟩

/-- C6 (amended): the inputSchema constrains lat, lng and
estimated_weight_kg only to be numbers; no range check exists anywhere in
the extractor, which carries whatever numeric values the model supplies
into the ticket unchanged. -/
theorem c6_amended_numeric_fields_unchecked (g : GenMeta) (a : WasteArgs)
    (image_bytes : List Nat) (t0 t1 : ℚ) :
    ((MainPy.run_model image_bytes [(g, a)] t0 t1 []).2.1).map
        (fun t => (t.lat, t.lng, t.estimated_weight_kg)) =
      Except.ok (a.lat, a.lng, a.estimated_weight_kg) := rfl

/-- C7 counterexample: on the web-UI surface a failed extraction (here:
the model makes zero invocations) writes no artifact at all to the output
file -- the handler shows the error in the UI and stops -- contradicting
the claim that every failure writes an error artifact on both surfaces. -/
theorem c7_counterexample_web_ui_writes_no_error_artifact :
    (AppPy.run_model [] "png" [] 0 1 []).2.1 =
      Except.error "Model did not call waste_report." ∧
    (AppPy.run_detection [] "png" [] 0 1 []).1 = none :=
  ⟨rfl, rfl⟩

/-- C7 (amended): on success both surfaces write the ticket artifact; on
failure the CLI writes an error artifact and produces no ticket, while the
web UI writes nothing at all (it only displays the error and stops). -/
theorem c7_amended_failure_artifact_per_surface (image_bytes : List Nat)
    (image_format : String) (invocations : List (GenMeta × WasteArgs))
    (t0 t1 : ℚ) (buf : List Ticket) :
    (MainPy.main_run image_bytes invocations t0 t1 buf).1 =
      (match MainPy.runAgent invocations buf with
       | [] => Artifact.error "Model did not call waste_report."
       | t :: _ => Artifact.ticket { t with wall_time_seconds := some (round4 (t1 - t0)) }) ∧
    (AppPy.run_detection image_bytes image_format invocations t0 t1 buf).1 =
      (match MainPy.runAgent invocations buf with
       | [] => none
       | t :: _ => some (Artifact.ticket { t with wall_time_seconds := some (round4 (t1 - t0)) })) := by
  have hAgent : AppPy.runAgent invocations buf = MainPy.runAgent invocations buf := rfl
  cases h : MainPy.runAgent invocations buf with
  | nil =>
      constructor
      · simp [MainPy.main_run, MainPy.run_model, MainPy.main_output, h]
      · simp [AppPy.run_detection, AppPy.run_model, hAgent, h]
  | cons t rest =>
      constructor
      · simp [MainPy.main_run, MainPy.run_model, MainPy.main_output, h]
      · simp [AppPy.run_detection, AppPy.run_model, hAgent, h]

/-- C8 (code bug): within one call the ticket is created with
wall_time_seconds none and run_model patches it to the elapsed time while
leaving every other field unchanged; but the ticket is NOT never updated
thereafter: a later call in which the model makes no invocation patches
the same stale ticket a second time, with a different wall_time_seconds
value. -/
theorem c8_stale_ticket_wall_time_patched_twice :
    (MainPy.waste_report scenarioMeta scenarioArgs []).1 = [scenarioTicket none] ∧
    (MainPy.run_model [] [(scenarioMeta, scenarioArgs)] 0 2 []).2.1 =
      Except.ok (scenarioTicket (some (round4 (2 - 0)))) ∧
    (MainPy.run_model [] [] 10 15
        (MainPy.run_model [] [(scenarioMeta, scenarioArgs)] 0 2 []).2.2).2.1 =
      Except.ok (scenarioTicket (some (round4 (15 - 10)))) ∧
    round4 ((2:ℚ) - 0) ≠ round4 ((15:ℚ) - 10) := by
  refine ⟨rfl, rfl, rfl, ?_⟩
  have h2 := round4_intCast 2
  have h5 := round4_intCast 5
  norm_num at h2 h5
  norm_num [h2, h5]

/-- C9: the extraction logic of the web-UI and CLI entry points is
equivalent up to image-format handling: with image_format png the app
run_model equals the main run_model on the nose (same request, same result,
same buffer); for any other format tag the result and buffer are still
identical and the built requests differ only in the image format field. -/
theorem c9_cli_and_web_extractors_equivalent (image_bytes : List Nat)
    (image_format : String) (invocations : List (GenMeta × WasteArgs))
    (t0 t1 : ℚ) (buf : List Ticket) :
    AppPy.run_model image_bytes "png" invocations t0 t1 buf =
      MainPy.run_model image_bytes invocations t0 t1 buf ∧
    (AppPy.run_model image_bytes image_format invocations t0 t1 buf).2 =
      (MainPy.run_model image_bytes invocations t0 t1 buf).2 ∧
    AppPy.buildRequest image_bytes image_format =
      { MainPy.buildRequest image_bytes with
          image := { format := image_format, bytes := image_bytes } } := by
  have hAgent : AppPy.runAgent invocations buf = MainPy.runAgent invocations buf := rfl
  refine ⟨rfl, ?_, rfl⟩
  cases h : MainPy.runAgent invocations buf with
  | nil => simp [AppPy.run_model, MainPy.run_model, hAgent, h]
  | cons t rest => simp [AppPy.run_model, MainPy.run_model, hAgent, h]

/-- C10: for every argument tuple the waste_report callback returns the
success record (it never signals failure), and immediately after every
invocation the buffer holds exactly one element, whatever it held before;
this holds for both copies of the tool. -/
theorem c10_waste_report_success_single_slot (g : GenMeta) (a : WasteArgs)
    (buf : List Ticket) :
    (MainPy.waste_report g a buf).2 = { status := "success" } ∧
    (MainPy.waste_report g a buf).1.length = 1 ∧
    (AppPy.waste_report g a buf).2 = { status := "success" } ∧
    (AppPy.waste_report g a buf).1.length = 1 :=
  ⟨rfl, rfl, rfl, rfl⟩
